import Mathlib

/-!
Verification of the evm-health readiness probe (execution-family adapter).

The Go source is shallowly embedded: Go strings are Lean `String`s
manipulated through their character lists, `uint64` values are `Nat`
with an explicit `< 2^64` bound where `strconv` enforces one, times are
`Int` unix seconds, and fallible operations return `Except`/`Option`.
The network is abstracted as an `Env` record holding the two RPC
responses a poll cycle would fetch; transport failure is `none`.
-/

namespace EvmHealth

/-- Hex digits accepted by Go `strconv.ParseUint`/`ParseInt` with base 16. -/
def isHexDigit (c : Char) : Bool :=
  c.isDigit || ('a' ≤ c && c ≤ 'f') || ('A' ≤ c && c ≤ 'F')

/-- Numeric value of a single hex digit. -/
def hexDigitVal (c : Char) : Nat :=
  if c.isDigit then c.toNat - '0'.toNat
  else if 'a' ≤ c && c ≤ 'f' then c.toNat - 'a'.toNat + 10
  else c.toNat - 'A'.toNat + 10

/-- Numeric value of a most-significant-digit-first hex digit list. -/
def hexVal (cs : List Char) : Nat :=
  cs.foldl (fun a c => 16 * a + hexDigitVal c) 0

/-- Go `strconv.ParseUint(s, 16, 64)`: succeeds exactly on a nonempty
string of hex digits (no sign, no `0x` prefix in base 16, no
underscores) whose value fits in 64 bits. -/
def goParseUint16 (s : String) : Option Nat :=
  if s.data ≠ [] ∧ s.data.all isHexDigit ∧ hexVal s.data < 2 ^ 64 then
    some (hexVal s.data)
  else none

/-- Go `strconv.ParseInt(s, 16, 64)`: an optional sign followed by a
nonempty hex-digit string, value within the `int64` range. -/
def goParseInt16 (s : String) : Option Int :=
  match s.data with
  | '-' :: rest =>
      if rest ≠ [] ∧ rest.all isHexDigit ∧ hexVal rest ≤ 2 ^ 63 then
        some (-(hexVal rest : Int))
      else none
  | '+' :: rest =>
      if rest ≠ [] ∧ rest.all isHexDigit ∧ hexVal rest ≤ 2 ^ 63 - 1 then
        some (hexVal rest : Int)
      else none
  | cs =>
      if cs ≠ [] ∧ cs.all isHexDigit ∧ hexVal cs ≤ 2 ^ 63 - 1 then
        some (hexVal cs : Int)
      else none

/-- Go `strings.TrimPrefix(s, "0x")`: removes one leading `"0x"` if present. -/
def goTrimThe0x (s : String) : String :=
  match s.data with
  | '0' :: 'x' :: rest => ⟨rest⟩
  | _ => s

/-- Go `strings.TrimLeft(s, "0x")`: removes every leading character
belonging to the cutset {'0','x'}. -/
def goTrimLeft0x (s : String) : String :=
  ⟨s.data.dropWhile (fun c => c == '0' || c == 'x')⟩

/-- `parseUintFromHex` from the source: best-effort hex decoding.
Empty input, input that is empty after stripping one `"0x"` prefix,
and any input `strconv.ParseUint` rejects all yield 0 (the Go code
logs a warning instead of panicking). -/
def parseUintFromHex (hex : String) : Nat :=
  if hex.data = [] then 0
  else
    let trimmed := goTrimThe0x hex
    if trimmed.data = [] then 0
    else
      match goParseUint16 trimmed with
      | some result => result
      | none => 0

/-- The error taxonomy of a poll cycle, mirroring the distinct `error`
values `isReady` can return. -/
inductive ReadinessError
  | transport
  | protocolError
  | ambiguousSyncStatus
  | syncLag (distance tolerance : Nat)
  | blockNumberDecode
  | blockTimestampDecode
  | staleBlock (age : Int)
  | stallDetected (elapsed : Int)
deriving DecidableEq, Repr

/-- `SyncInfo` from the source: the structured `eth_syncing` result,
hex-encoded fields kept as strings. -/
structure SyncInfo where
  currentBlockHex : String
  highestBlockHex : String
deriving DecidableEq, Repr

def SyncInfo.currentBlock (s : SyncInfo) : Nat :=
  parseUintFromHex s.currentBlockHex

def SyncInfo.highestBlock (s : SyncInfo) : Nat :=
  parseUintFromHex s.highestBlockHex

/-- `SyncInfo.distance` from the source: clamped to 0 when
`highestBlock < currentBlock`. -/
def SyncInfo.distance (s : SyncInfo) : Nat :=
  let h := s.highestBlock
  let c := s.currentBlock
  if h < c then 0 else h - c

/-- `Block` from the source: hex-encoded `timestamp` and `number`. -/
structure Block where
  timestampHex : String
  numberHex : String
deriving DecidableEq, Repr

/-- `Block.time` from the source: `TrimLeft` with cutset `"0x"`, then
strict `ParseInt` base 16; a parse failure is an error. -/
def Block.time (b : Block) : Except ReadinessError Int :=
  match goParseInt16 (goTrimLeft0x b.timestampHex) with
  | some unixtime => .ok unixtime
  | none => .error .blockTimestampDecode

/-- `Block.number` from the source: `TrimLeft` with cutset `"0x"`, then
strict `ParseUint` base 16; a parse failure is an error. -/
def Block.number (b : Block) : Except ReadinessError Nat :=
  match goParseUint16 (goTrimLeft0x b.numberHex) with
  | some blockNumber => .ok blockNumber
  | none => .error .blockNumberDecode

/-- `Block.checkAge` from the source: age is `now` minus the decoded
timestamp; older than 300 seconds is an error carrying the age. -/
def Block.checkAge (b : Block) (now : Int) : Except ReadinessError Unit :=
  match b.time with
  | .error e => .error e
  | .ok created =>
      let age := now - created
      if age > 300 then .error (.staleBlock age) else .ok ()

/-- The decoded `result` field of the `eth_syncing` JSON-RPC response:
a structured object, a plain boolean, or neither. -/
inductive RpcResult
  | object (currentBlockHex highestBlockHex : String)
  | boolean (b : Bool)
  | invalid
deriving DecidableEq, Repr

/-- First decode attempt of `getSyncing`: unmarshal into
`JsonResultSync` (the structured `{currentBlock, highestBlock}` form). -/
def decodeSyncStructured : RpcResult → Option SyncInfo
  | .object c h => some ⟨c, h⟩
  | _ => none

/-- Fallback decode attempt of `getSyncing`: unmarshal into
`JsonResultBool`. -/
def decodeSyncBool : RpcResult → Option Bool
  | .boolean b => some b
  | _ => none

/-- `getSyncing` from the source, after the transport layer: try the
structured form first; on failure fall back to the boolean form;
boolean `true` is the `"syncing is true, not expected"` error; boolean
`false` means not syncing (`nil, nil`); anything else is an unmarshal
error. -/
def getSyncing (r : RpcResult) : Except ReadinessError (Option SyncInfo) :=
  match decodeSyncStructured r with
  | some s => .ok (some s)
  | none =>
      match decodeSyncBool r with
      | some true => .error .ambiguousSyncStatus
      | some false => .ok none
      | none => .error .protocolError

/-- Modelled from the spec: `common.BlockTrack`, the liveness tracker,
whose Go source (package `internal/common`) is not in the repository
snapshot; only its callers are. State per §3/§4.3: an optional last
observed block number and the time of the last advance. -/
structure BlockTrack where
  lastObservedNumber : Option Nat
  lastAdvanceTime : Int
deriving DecidableEq, Repr

/-- Modelled from the spec: `BlockTrack.AddBlock` / `observe(number)`:
update both fields to the new number and the current time exactly when
the number strictly exceeds the last observation or none exists;
otherwise leave the state unchanged, without error. -/
def BlockTrack.addBlock (t : BlockTrack) (now : Int) (number : Nat) :
    BlockTrack :=
  match t.lastObservedNumber with
  | none => ⟨some number, now⟩
  | some last =>
      if number > last then ⟨some number, now⟩ else t

/-- Modelled from the spec: `BlockTrack.HealthCheck` / `checkLiveness`:
compute `now − lastAdvanceTime` and report a stall carrying that
elapsed time exactly when it exceeds the stall threshold (left as a
parameter; the spec calls its default an open question). -/
def BlockTrack.healthCheck (t : BlockTrack) (threshold now : Int) :
    Except ReadinessError Unit :=
  let elapsed := now - t.lastAdvanceTime
  if elapsed > threshold then .error (.stallDetected elapsed) else .ok ()

/-- The two outbound responses a poll cycle consumes; `none` models a
failed fetch (transport error, non-200 status, or an unmarshalable
body), which aborts the cycle at that request. -/
structure Env where
  syncResp : Option RpcResult
  blockResp : Option Block
deriving DecidableEq, Repr

/-- Outcome of one `isReady` cycle: the verdict, the tracker state
after the cycle (the package-level `blockTrack` variable), and whether
the second outbound request (`eth_getBlockByNumber`) was issued. -/
structure CycleResult where
  verdict : Except ReadinessError Unit
  track : BlockTrack
  blockRequested : Bool
deriving Repr

/-- `isReady` from the source, one poll cycle over the embedded
environment: sync-status step (with sync-lag tolerance), latest-block
fetch, strict number decode, tracker observation, freshness check,
liveness check — in that order. -/
def isReady (env : Env) (syncTolerance : Nat) (threshold now : Int)
    (track : BlockTrack) : CycleResult :=
  match env.syncResp with
  | none => ⟨.error .transport, track, false⟩
  | some r =>
      match getSyncing r with
      | .error e => ⟨.error e, track, false⟩
      | .ok syncInfo =>
          let syncStep : Except ReadinessError Unit :=
            match syncInfo with
            | some s =>
                if s.distance > syncTolerance then
                  .error (.syncLag s.distance syncTolerance)
                else .ok ()
            | none => .ok ()
          match syncStep with
          | .error e => ⟨.error e, track, false⟩
          | .ok _ =>
              match env.blockResp with
              | none => ⟨.error .transport, track, true⟩
              | some block =>
                  match block.number with
                  | .error e => ⟨.error e, track, true⟩
                  | .ok blockNumber =>
                      let track2 := track.addBlock now blockNumber
                      match block.checkAge now with
                      | .error e => ⟨.error e, track2, true⟩
                      | .ok _ =>
                          match track2.healthCheck threshold now with
                          | .error e => ⟨.error e, track2, true⟩
                          | .ok _ => ⟨.ok (), track2, true⟩


/-- The package-level tracker of the execution package (`var blockTrack
common.BlockTrack`): one variable per process, used by every poll
cycle the package runs, whichever adapter target the cycle serves. -/
structure ExecutionPkg where
  blockTrack : BlockTrack
deriving DecidableEq, Repr

/-- One poll cycle as the source runs it: `isReady` reads the
package-level tracker and leaves behind the updated one. -/
def pkgCycle (g : ExecutionPkg) (env : Env) (tol : Nat) (th now : Int) :
    Except ReadinessError Unit × ExecutionPkg :=
  let r := isReady env tol th now g.blockTrack
  (r.verdict, ⟨r.track⟩)

-- Shared parsing lemmas

theorem goParseUint16_eq_none_of_nonhex (s : String)
    (h : ∃ c ∈ s.data, isHexDigit c = false) : goParseUint16 s = none := by
  unfold goParseUint16
  rw [if_neg]
  rintro ⟨-, hall, -⟩
  obtain ⟨c, hmem, hfalse⟩ := h
  have := List.all_eq_true.mp hall c hmem
  rw [this] at hfalse
  cases hfalse

theorem goTrimThe0x_of_all_hex (s : String) (h : s.data.all isHexDigit) :
    goTrimThe0x s = s := by
  unfold goTrimThe0x
  split
  · next rest heq =>
      exfalso
      have hx : isHexDigit 'x' = true :=
        List.all_eq_true.mp h 'x' (by rw [heq]; simp)
      exact absurd hx (by decide)
  · rfl

theorem parseUintFromHex_of_valid (s : String) (h1 : s.data ≠ [])
    (h2 : s.data.all isHexDigit) (h3 : hexVal s.data < 2 ^ 64) :
    parseUintFromHex s = hexVal s.data ∧
    parseUintFromHex ("0x" ++ s) = hexVal s.data := by
  constructor
  · unfold parseUintFromHex
    rw [if_neg h1, goTrimThe0x_of_all_hex s h2, if_neg h1]
    unfold goParseUint16
    rw [if_pos ⟨h1, h2, h3⟩]
  · obtain ⟨data⟩ := s
    have hd : ("0x" ++ String.mk data).data = '0' :: 'x' :: data := rfl
    unfold parseUintFromHex
    rw [hd]
    rw [if_neg (by simp)]
    have ht : goTrimThe0x ("0x" ++ String.mk data) = String.mk data := rfl
    rw [ht, if_neg h1]
    unfold goParseUint16
    rw [if_pos ⟨h1, h2, h3⟩]



/-- Claim C4: distance is clamped to 0 when highestBlock < currentBlock
(including both zero or failed best-effort parses), and is the exact
difference otherwise. -/
theorem C4_distance_clamped (cur high : String) :
    ((SyncInfo.mk cur high).highestBlock < (SyncInfo.mk cur high).currentBlock →
        (SyncInfo.mk cur high).distance = 0)
    ∧ ((SyncInfo.mk cur high).currentBlock ≤ (SyncInfo.mk cur high).highestBlock →
        (SyncInfo.mk cur high).distance =
          (SyncInfo.mk cur high).highestBlock - (SyncInfo.mk cur high).currentBlock) := by
  constructor
  · intro h
    unfold SyncInfo.distance
    simp only [if_pos h]
  · intro h
    unfold SyncInfo.distance
    rw [if_neg (by omega)]

theorem C4_witness :
    (SyncInfo.mk "0x64" "0x5a").highestBlock < (SyncInfo.mk "0x64" "0x5a").currentBlock ∧
    (SyncInfo.mk "0x64" "0x5a").distance = 0 :=
  ⟨by decide, (C4_distance_clamped "0x64" "0x5a").1 (by decide)⟩

/-- Claim C5: parseUintFromHex is total by construction; "" and "0x" yield 0,
any string whose stripped form has a non-hex character yields 0, and a
valid hex string (with or without the 0x prefix) decodes to its value;
"0x1a" yields 26. -/
theorem C5_parse_best_effort :
    parseUintFromHex "" = 0
    ∧ parseUintFromHex "0x" = 0
    ∧ (∀ s : String, (∃ c ∈ (goTrimThe0x s).data, isHexDigit c = false) →
        parseUintFromHex s = 0)
    ∧ (∀ s : String, s.data ≠ [] → s.data.all isHexDigit → hexVal s.data < 2 ^ 64 →
        parseUintFromHex s = hexVal s.data ∧ parseUintFromHex ("0x" ++ s) = hexVal s.data)
    ∧ parseUintFromHex "0x1a" = 26 := by
  refine ⟨rfl, rfl, ?_, parseUintFromHex_of_valid, rfl⟩
  intro s hc
  simp only [parseUintFromHex, goParseUint16_eq_none_of_nonhex _ hc]
  split
  · rfl
  · split
    · rfl
    · rfl

theorem C5_witness :
    (∃ c ∈ (goTrimThe0x "0xzz").data, isHexDigit c = false) ∧ parseUintFromHex "0xzz" = 0 :=
  ⟨by decide, C5_parse_best_effort.2.2.1 "0xzz" (by decide)⟩


/-- Claim C1: the sync-lag step of isReady: with a structured sync response,
distance above tolerance fails with SyncLag carrying distance and
tolerance (no block request, tracker untouched); distance at or below
tolerance continues exactly as a not-syncing cycle would; the concrete
(0x5a, 0x64) response with tolerance 5 fails with SyncLag{10, 5}. -/
theorem C1_sync_lag (cur high : String) (tol : Nat) (th now : Int)
    (tr : BlockTrack) (blk : Option Block) :
    ((SyncInfo.mk cur high).distance > tol →
        isReady ⟨some (.object cur high), blk⟩ tol th now tr =
          ⟨.error (.syncLag (SyncInfo.mk cur high).distance tol), tr, false⟩)
    ∧ ((SyncInfo.mk cur high).distance ≤ tol →
        isReady ⟨some (.object cur high), blk⟩ tol th now tr =
          isReady ⟨some (.boolean false), blk⟩ tol th now tr)
    ∧ isReady ⟨some (.object "0x5a" "0x64"), blk⟩ 5 th now tr =
        ⟨.error (.syncLag 10 5), tr, false⟩ := by
  refine ⟨?_, ?_, ?_⟩
  · intro h
    simp only [isReady, getSyncing, decodeSyncStructured, if_pos h]
  · intro h
    simp only [isReady, getSyncing, decodeSyncStructured, decodeSyncBool,
      if_neg (not_lt.mpr h)]
  · have h10 : (SyncInfo.mk "0x5a" "0x64").distance = 10 := by decide
    simp only [isReady, getSyncing, decodeSyncStructured, h10]
    rfl

theorem C1_witness :
    (SyncInfo.mk "0x5a" "0x64").distance > 5 ∧
    isReady ⟨some (.object "0x5a" "0x64"), none⟩ 5 0 0 ⟨none, 0⟩ =
      ⟨.error (.syncLag (SyncInfo.mk "0x5a" "0x64").distance 5), ⟨none, 0⟩, false⟩ :=
  ⟨by decide, (C1_sync_lag "0x5a" "0x64" 5 0 0 ⟨none, 0⟩ none).1 (by decide)⟩

/-- Claim C2: a boolean-true sync response fails with AmbiguousSyncStatus and
is never judged healthy that cycle; boolean false is "not syncing";
the structured decode is attempted first and wins whenever the
response is the structured object, the boolean decode being used only
when the structured decode returns nothing. -/
theorem C2_ambiguous_sync (blk : Option Block) (tol : Nat) (th now : Int)
    (tr : BlockTrack) (r : RpcResult) (cur high : String) :
    (isReady ⟨some (.boolean true), blk⟩ tol th now tr =
        ⟨.error .ambiguousSyncStatus, tr, false⟩)
    ∧ ((isReady ⟨some (.boolean true), blk⟩ tol th now tr).verdict ≠ .ok ())
    ∧ getSyncing (.boolean false) = .ok none
    ∧ getSyncing (.object cur high) = .ok (some ⟨cur, high⟩)
    ∧ (decodeSyncStructured r = none →
        getSyncing r =
          match decodeSyncBool r with
          | some true => .error .ambiguousSyncStatus
          | some false => .ok none
          | none => .error .protocolError) := by
  refine ⟨rfl, by simp [isReady, getSyncing, decodeSyncStructured, decodeSyncBool], rfl, rfl, ?_⟩
  intro h
  unfold getSyncing
  rw [h]

theorem C2_witness :
    decodeSyncStructured .invalid = none ∧
    getSyncing .invalid = .error .protocolError := by
  refine ⟨rfl, ?_⟩
  have h := (C2_ambiguous_sync none 0 0 0 ⟨none, 0⟩ .invalid "" "").2.2.2.2 rfl
  simpa using h

/-- Claim C3: observe updates the tracker exactly on a strictly greater (or
first) observation and otherwise leaves it unchanged without error;
checkLiveness stalls exactly when now minus lastAdvanceTime exceeds
the threshold, carrying that elapsed time; the strictly increasing
sequence [10, 11, 12] polled within the threshold never stalls, while
[10, 10, 10] held longer than the threshold stalls. -/
theorem C3_liveness_tracker (tr : BlockTrack) (now : Int) (n : Nat)
    (th tc t0 t1 t2 : Int) :
    (tr.lastObservedNumber = none → tr.addBlock now n = ⟨some n, now⟩)
    ∧ (∀ last, tr.lastObservedNumber = some last → last < n →
        tr.addBlock now n = ⟨some n, now⟩)
    ∧ (∀ last, tr.lastObservedNumber = some last → n ≤ last →
        tr.addBlock now n = tr)
    ∧ (th < now - tr.lastAdvanceTime ↔
        tr.healthCheck th now = .error (.stallDetected (now - tr.lastAdvanceTime)))
    ∧ (now - tr.lastAdvanceTime ≤ th → tr.healthCheck th now = .ok ())
    ∧ (0 ≤ th → t1 - t0 ≤ th → t2 - t1 ≤ th →
        (((BlockTrack.mk none tc).addBlock t0 10).healthCheck th t0 = .ok ()
         ∧ ((((BlockTrack.mk none tc).addBlock t0 10).addBlock t1 11).healthCheck th t1 = .ok ())
         ∧ (((((BlockTrack.mk none tc).addBlock t0 10).addBlock t1 11).addBlock t2 12).healthCheck th t2 = .ok ())))
    ∧ (t0 ≤ t1 → t1 ≤ t2 → th < t2 - t0 →
        ((((BlockTrack.mk none tc).addBlock t0 10).addBlock t1 10).addBlock t2 10).healthCheck th t2 =
          .error (.stallDetected (t2 - t0))) := by
  refine ⟨?_, ?_, ?_, ?_, ?_, ?_, ?_⟩
  · intro h
    unfold BlockTrack.addBlock
    rw [h]
  · intro last h hlt
    unfold BlockTrack.addBlock
    rw [h]
    simp [hlt]
  · intro last h hle
    unfold BlockTrack.addBlock
    rw [h]
    simp [Nat.not_lt.mpr hle]
  · unfold BlockTrack.healthCheck
    constructor
    · intro h
      simp only [if_pos h]
    · intro h
      by_contra hlt
      rw [if_neg (by omega)] at h
      cases h
  · intro h
    unfold BlockTrack.healthCheck
    rw [if_neg (by omega)]
  · intro h0 _ _
    simp [BlockTrack.addBlock, BlockTrack.healthCheck]
    omega
  · intro _ _ hgt
    have hred : ((((BlockTrack.mk none tc).addBlock t0 10).addBlock t1 10).addBlock t2 10) =
        ⟨some 10, t0⟩ := by
      simp [BlockTrack.addBlock]
    rw [hred]
    unfold BlockTrack.healthCheck
    simp only [if_pos hgt]

theorem C3_witness :
    ((0 : Int) ≤ 0 ∧ (0 : Int) ≤ 1 ∧ (1 : Int) ≤ 10 ∧ (5 : Int) < 10 - 0) ∧
    ((((BlockTrack.mk none 0).addBlock 0 10).addBlock 1 10).addBlock 10 10).healthCheck 5 10 =
      .error (.stallDetected (10 - 0)) :=
  ⟨by norm_num,
   (C3_liveness_tracker ⟨none, 0⟩ 0 0 5 0 0 1 10).2.2.2.2.2.2 (by norm_num)
     (by norm_num) (by norm_num)⟩

/-- Claim C6: when the strict decode of a latest block's number or timestamp
field fails, the decoder returns an error rather than any value (in
particular not 0), a stripped field containing a non-hex character
always fails that decode, and isReady fails the cycle with the decode
error. -/
theorem C6_strict_block_decode (ts num : String) (tol : Nat) (th now : Int)
    (tr : BlockTrack) (n : Nat) :
    ((∃ c ∈ (goTrimLeft0x num).data, isHexDigit c = false) →
        goParseUint16 (goTrimLeft0x num) = none)
    ∧ (goParseUint16 (goTrimLeft0x num) = none →
        Block.number ⟨ts, num⟩ = .error .blockNumberDecode
        ∧ (∀ k, Block.number ⟨ts, num⟩ ≠ .ok k)
        ∧ isReady ⟨some (.boolean false), some ⟨ts, num⟩⟩ tol th now tr =
            ⟨.error .blockNumberDecode, tr, true⟩)
    ∧ (goParseInt16 (goTrimLeft0x ts) = none →
        Block.time ⟨ts, num⟩ = .error .blockTimestampDecode
        ∧ (∀ k, Block.time ⟨ts, num⟩ ≠ .ok k)
        ∧ (Block.number ⟨ts, num⟩ = .ok n →
            isReady ⟨some (.boolean false), some ⟨ts, num⟩⟩ tol th now tr =
              ⟨.error .blockTimestampDecode, tr.addBlock now n, true⟩)) := by
  refine ⟨goParseUint16_eq_none_of_nonhex _, ?_, ?_⟩
  · intro h
    have hnum : Block.number ⟨ts, num⟩ = .error .blockNumberDecode := by
      unfold Block.number
      rw [h]
    refine ⟨hnum, by simp [hnum], ?_⟩
    simp only [isReady, getSyncing, decodeSyncStructured, decodeSyncBool, hnum]
  · intro h
    have htime : Block.time ⟨ts, num⟩ = .error .blockTimestampDecode := by
      unfold Block.time
      rw [h]
    refine ⟨htime, by simp [htime], ?_⟩
    intro hnum
    have hage : Block.checkAge ⟨ts, num⟩ now = .error .blockTimestampDecode := by
      unfold Block.checkAge
      rw [htime]
    simp only [isReady, getSyncing, decodeSyncStructured, decodeSyncBool, hnum, hage]

theorem C6_witness :
    goParseUint16 (goTrimLeft0x "zz") = none ∧
    isReady ⟨some (.boolean false), some ⟨"0x1", "zz"⟩⟩ 0 1000 0 ⟨none, 0⟩ =
      ⟨.error .blockNumberDecode, ⟨none, 0⟩, true⟩ :=
  ⟨by decide,
   ((C6_strict_block_decode "0x1" "zz" 0 1000 0 ⟨none, 0⟩ 0).2.1 (by decide)).2.2⟩

/-- Claim C7: a decoded latest-block timestamp more than 300 seconds before
now fails the freshness check with the block's age; an age within 300
seconds passes it; within a full cycle the stale failure carries the
age and the tracker has already observed the number; a timestamp 400
seconds in the past yields age 400. -/
theorem C7_freshness (b : Block) (created now : Int) (ts num : String)
    (n : Nat) (tol : Nat) (th : Int) (tr : BlockTrack) :
    (b.time = .ok created → 300 < now - created →
        b.checkAge now = .error (.staleBlock (now - created)))
    ∧ (b.time = .ok created → now - created ≤ 300 → b.checkAge now = .ok ())
    ∧ (Block.time ⟨ts, num⟩ = .ok created → Block.number ⟨ts, num⟩ = .ok n →
        300 < now - created →
        isReady ⟨some (.boolean false), some ⟨ts, num⟩⟩ tol th now tr =
          ⟨.error (.staleBlock (now - created)), tr.addBlock now n, true⟩)
    ∧ (Block.time ⟨ts, num⟩ = .ok (now - 400) →
        Block.checkAge ⟨ts, num⟩ now = .error (.staleBlock 400)) := by
  have hage : ∀ (bb : Block) (c : Int), bb.time = .ok c → 300 < now - c →
      bb.checkAge now = .error (.staleBlock (now - c)) := by
    intro bb c h hgt
    unfold Block.checkAge
    rw [h]
    simp only [if_pos hgt]
  refine ⟨hage b created, ?_, ?_, ?_⟩
  · intro h hle
    unfold Block.checkAge
    rw [h]
    simp only [if_neg (show ¬(now - created > 300) by omega)]
  · intro htime hnum hgt
    have h := hage ⟨ts, num⟩ created htime hgt
    simp only [isReady, getSyncing, decodeSyncStructured, decodeSyncBool, hnum, h]
  · intro htime
    have h4 : (300 : Int) < now - (now - 400) := by omega
    have := hage ⟨ts, num⟩ (now - 400) htime h4
    rw [this]
    congr 1
    congr 1
    omega

theorem C7_witness :
    (Block.mk "0x64" "0x1").time = .ok 100 ∧ (300 : Int) < 500 - 100 ∧
    (Block.mk "0x64" "0x1").checkAge 500 = .error (.staleBlock (500 - 100)) :=
  ⟨rfl, by norm_num,
   (C7_freshness ⟨"0x64", "0x1"⟩ 100 500 "" "" 0 0 0 ⟨none, 0⟩).1 rfl (by norm_num)⟩

/-- Claim C8: step ordering of isReady: every sync-step failure (transport,
decode, sync lag) returns with the tracker unchanged and without the
latest-block request; once the number decodes, the tracker has
observed it — whatever the later checks decide — so a stale-block
failure still carries the updated tracker. -/
theorem C8_step_order (env : Env) (r : RpcResult) (s : SyncInfo) (b : Block)
    (n : Nat) (tol : Nat) (th now : Int) (tr : BlockTrack) :
    (env.syncResp = none →
        isReady env tol th now tr = ⟨.error .transport, tr, false⟩)
    ∧ (∀ e, env.syncResp = some r → getSyncing r = .error e →
        isReady env tol th now tr = ⟨.error e, tr, false⟩)
    ∧ (env.syncResp = some r → getSyncing r = .ok (some s) → tol < s.distance →
        isReady env tol th now tr = ⟨.error (.syncLag s.distance tol), tr, false⟩)
    ∧ (env.syncResp = some r → getSyncing r = .ok none → env.blockResp = some b →
        b.number = .ok n →
        (isReady env tol th now tr).track = tr.addBlock now n
        ∧ (isReady env tol th now tr).blockRequested = true)
    ∧ (∀ e, env.syncResp = some r → getSyncing r = .ok none → env.blockResp = some b →
        b.number = .ok n → b.checkAge now = .error e →
        isReady env tol th now tr = ⟨.error e, tr.addBlock now n, true⟩) := by
  refine ⟨?_, ?_, ?_, ?_, ?_⟩
  · intro h
    simp only [isReady, h]
  · intro e h1 h2
    simp only [isReady, h1, h2]
  · intro h1 h2 h3
    simp only [isReady, h1, h2, if_pos h3]
  · intro h1 h2 h3 h4
    simp only [isReady, h1, h2, h3, h4]
    constructor
    · cases hage : (b.checkAge now) with
      | error e => simp
      | ok u =>
          cases hlive : ((tr.addBlock now n).healthCheck th now) with
          | error e => simp
          | ok u => simp
    · cases hage : (b.checkAge now) with
      | error e => simp
      | ok u =>
          cases hlive : ((tr.addBlock now n).healthCheck th now) with
          | error e => simp
          | ok u => simp
  · intro e h1 h2 h3 h4 h5
    simp only [isReady, h1, h2, h3, h4, h5]

theorem C8_witness :
    (Env.mk none none).syncResp = none ∧
    isReady ⟨none, none⟩ 0 0 0 ⟨none, 0⟩ = ⟨.error .transport, ⟨none, 0⟩, false⟩ :=
  ⟨rfl, (C8_step_order ⟨none, none⟩ .invalid ⟨"", ""⟩ ⟨"", ""⟩ 0 0 0 0 ⟨none, 0⟩).1 rfl⟩

/-- Claim C10: TrimLeft with cutset "0x" empties any field made only of '0'
and 'x' characters, so the strict decoders reject such fields — "0x0"
and "0x00" included, although they are well-formed hex encodings of
zero — and isReady fails the cycle. -/
theorem C10_zero_block_rejected (ts num : String) (tol : Nat) (th now : Int)
    (tr : BlockTrack) (n : Nat) :
    ((∀ c ∈ num.data, c = '0' ∨ c = 'x') →
        goTrimLeft0x num = "" ∧
        Block.number ⟨ts, num⟩ = .error .blockNumberDecode ∧
        isReady ⟨some (.boolean false), some ⟨ts, num⟩⟩ tol th now tr =
          ⟨.error .blockNumberDecode, tr, true⟩)
    ∧ ((∀ c ∈ ts.data, c = '0' ∨ c = 'x') →
        goTrimLeft0x ts = "" ∧
        Block.time ⟨ts, num⟩ = .error .blockTimestampDecode ∧
        (Block.number ⟨ts, num⟩ = .ok n →
          isReady ⟨some (.boolean false), some ⟨ts, num⟩⟩ tol th now tr =
            ⟨.error .blockTimestampDecode, tr.addBlock now n, true⟩))
    ∧ goTrimLeft0x "0x0" = "" ∧ goTrimLeft0x "0x00" = ""
    ∧ Block.number ⟨"0x1", "0x0"⟩ = .error .blockNumberDecode := by
  have hempty : ∀ u : String, (∀ c ∈ u.data, c = '0' ∨ c = 'x') →
      goTrimLeft0x u = "" := by
    intro u hu
    unfold goTrimLeft0x
    have : u.data.dropWhile (fun c => c == '0' || c == 'x') = [] := by
      rw [List.dropWhile_eq_nil_iff]
      intro x hx
      rcases hu x hx with h | h <;> simp [h]
    rw [this]
  refine ⟨?_, ?_, rfl, rfl, rfl⟩
  · intro h
    have he := hempty num h
    have hparse : goParseUint16 (goTrimLeft0x num) = none := by
      rw [he]
      rfl
    have hnum : Block.number ⟨ts, num⟩ = .error .blockNumberDecode := by
      unfold Block.number
      rw [hparse]
    refine ⟨he, hnum, ?_⟩
    simp only [isReady, getSyncing, decodeSyncStructured, decodeSyncBool, hnum]
  · intro h
    have he := hempty ts h
    have hparse : goParseInt16 (goTrimLeft0x ts) = none := by
      rw [he]
      rfl
    have htime : Block.time ⟨ts, num⟩ = .error .blockTimestampDecode := by
      unfold Block.time
      rw [hparse]
    refine ⟨he, htime, ?_⟩
    intro hnum
    have hage : Block.checkAge ⟨ts, num⟩ now = .error .blockTimestampDecode := by
      unfold Block.checkAge
      rw [htime]
    simp only [isReady, getSyncing, decodeSyncStructured, decodeSyncBool, hnum, hage]

theorem C10_witness :
    (∀ c ∈ ("0x0" : String).data, c = '0' ∨ c = 'x') ∧
    isReady ⟨some (.boolean false), some ⟨"0x1", "0x0"⟩⟩ 0 1000 0 ⟨none, 0⟩ =
      ⟨.error .blockNumberDecode, ⟨none, 0⟩, true⟩ :=
  ⟨by decide,
   ((C10_zero_block_rejected "0x1" "0x0" 0 1000 0 ⟨none, 0⟩ 0).1 (by decide)).2.2⟩

/-- Claim C9 counterexample: the tracker is the package-level variable
`blockTrack`, shared by every cycle the execution package runs. With a
shared tracker last advanced by adapter A's fast target (block 100 at
time 10), adapter B's target — stalled at block 10 since time 0 —
passes the liveness check at time 12 under threshold 5, while an
instance-scoped tracker of B's own would report a 12-second stall: two
adapters in one process do cross-contaminate stall-clock state. -/
theorem C9_counterexample :
    (pkgCycle ⟨⟨some 10, 0⟩⟩ ⟨some (.boolean false), some ⟨"0xa", "0x64"⟩⟩ 0 5 10).2 ≠
        (⟨⟨some 10, 0⟩⟩ : ExecutionPkg)
    ∧ (pkgCycle
        (pkgCycle ⟨⟨some 10, 0⟩⟩ ⟨some (.boolean false), some ⟨"0xa", "0x64"⟩⟩ 0 5 10).2
        ⟨some (.boolean false), some ⟨"0xc", "0xa"⟩⟩ 0 5 12).1 = .ok ()
    ∧ (isReady ⟨some (.boolean false), some ⟨"0xc", "0xa"⟩⟩ 0 5 12 ⟨some 10, 0⟩).verdict =
        .error (.stallDetected 12) :=
  ⟨by decide, rfl, rfl⟩

/-- Claim C9 amended: the liveness tracker is held as a single package-level
variable, not a per-adapter field: every cycle reads the tracker the
previous cycle wrote, whichever adapter ran it, so adapters monitoring
independent targets in one process share stall-clock state (the
shipped program starts only one poll loop per process). -/
theorem C9_amended_shared_tracker (g : ExecutionPkg) (envA envB : Env)
    (tol : Nat) (th nowA nowB : Int) :
    ((pkgCycle g envA tol th nowA).2.blockTrack =
        (isReady envA tol th nowA g.blockTrack).track)
    ∧ ((pkgCycle (pkgCycle g envA tol th nowA).2 envB tol th nowB).1 =
        (isReady envB tol th nowB (isReady envA tol th nowA g.blockTrack).track).verdict) :=
  ⟨rfl, rfl⟩

end EvmHealth
